import Mathlib

/-!
Shallow embedding of the `overcooked-rl-playground` notebook
(`src/notebook/overcooked-rl-playground.ipynb`).

The notebook is glue code over the external Overcooked-AI library.  The
notebook's own code (attribute-fallback grid extraction, cell sequencing,
concrete constants such as the horizon 400 and the layout name) is embedded
directly from the source.  Library operations whose implementation is not in
this repository are modelled from the spec, each marked
`Modelled from the spec:` in its doc comment; recorded notebook outputs
(the grid literal, the mask shape, the feature-vector length, the event-log
keys) pin the concrete values used by those models.
-/

namespace Overcooked

/-- A terrain layout grid: a 2-D list of characters, as displayed by Cell 3
(`[['X','X',...], ...]`). -/
abbrev Grid := List (List Char)

/-- The grid of the `asymmetric_advantages` layout, transcribed from the
recorded output of Cell 3 of the notebook. -/
def asymmetricAdvantagesGrid : Grid :=
  [ ['X', 'X', 'X', 'X', 'X', 'X', 'X', 'X', 'X'],
    ['O', ' ', 'X', 'S', 'X', 'O', 'X', ' ', 'S'],
    ['X', ' ', ' ', ' ', 'P', ' ', ' ', ' ', 'X'],
    ['X', ' ', ' ', ' ', 'P', ' ', ' ', ' ', 'X'],
    ['X', 'X', 'X', 'D', 'X', 'D', 'X', 'X', 'X'] ]

/-- Number of rows of a grid (`len(grid)` in Cell 3). -/
def gridRows (g : Grid) : Nat := g.length

/-- Number of columns of a grid (`len(grid[0])` in Cell 3). -/
def gridCols (g : Grid) : Nat := (g.headD []).length

/-- A grid is rectangular and non-empty: at least one row, and every row has
the length of the first row. -/
def isRectangular (g : Grid) : Bool :=
  !g.isEmpty && g.all (fun row => row.length = gridCols g)

/-- Python exceptions that the library calls of the notebook can raise. -/
inductive PyError where
  /-- `AttributeError`, raised when an object lacks the named attribute. -/
  | attributeError (attr : String)
  /-- A missing layout name in `OvercookedGridworld.from_layout_name`. -/
  | missingLayout
  /-- An invalid action passed to the transition function. -/
  | invalidAction
  /-- A failure inside planner computation. -/
  | plannerError
  deriving DecidableEq, Repr

/-- `True` exactly for `AttributeError`, the class named by the `except`
clause of Cell 3. -/
def PyError.isAttributeError : PyError → Bool
  | .attributeError _ => true
  | _ => false

/-- The grid-world object (`OvercookedGridworld`).  Its terrain layout may be
exposed under the attribute name `terrain_mtx` or under `grid`; an absent
attribute is `none`, and reading it raises `AttributeError`.  The notebook
(Cell 3 markdown) documents exactly these two candidate attribute names. -/
structure Mdp where
  layout_name : String
  terrain_mtx : Option Grid
  grid : Option Grid
  deriving DecidableEq, Repr

/-- Reading a Python attribute: the value when present, `AttributeError`
when absent. -/
def readAttr (attr : Option Grid) (name : String) : Except PyError Grid :=
  match attr with
  | some g => .ok g
  | none => .error (.attributeError name)

/-- Cell 3 of the notebook:
`try: grid = mdp.terrain_mtx except AttributeError: grid = mdp.grid`.
The `except` clause catches only `AttributeError`; any other exception from
the `try` body would propagate. -/
def extractGrid (m : Mdp) : Except PyError Grid :=
  match readAttr m.terrain_mtx "terrain_mtx" with
  | .ok g => .ok g
  | .error e =>
      if e.isAttributeError then readAttr m.grid "grid" else .error e

/-- The library calls issued by the notebook's code cells, in order. -/
inductive LibCall where
  | fromLayoutName
  | fromMdp
  | getStandardStartState
  | readTerrainMtx
  | readGridAttr
  | displayRenderedState0
  | getStateTransition
  | displayRenderedState1
  | losslessStateEncoding
  | fromPickleOrCompute
  | featurizeState
  | potentialFunction
  | getRollouts
  | displayRenderedTrajectory
  deriving DecidableEq, Repr

/-- A notebook statement: either a bare library call, or a `try`/`except`
statement that runs a primary call and, when it raises an exception
satisfying the guard, runs a fallback call instead. -/
inductive Stmt where
  | call (c : LibCall)
  | tryExcept (primary : LibCall) (catches : PyError → Bool) (fallback : LibCall)

/-- Whether a statement is a `try`/`except` (an error-handling fallback). -/
def Stmt.isHandler : Stmt → Bool
  | .call _ => false
  | .tryExcept _ _ _ => true

/-- The primary call of a statement. -/
def Stmt.primaryCall : Stmt → LibCall
  | .call c => c
  | .tryExcept c _ _ => c

/-- The notebook program: the sequence of library calls of Cells 2–9,
transcribed statement by statement from the source.  The single
`try`/`except` is Cell 3's grid extraction, guarded by `AttributeError`. -/
def notebookProgram : List Stmt :=
  [ .call .fromLayoutName,
    .call .fromMdp,
    .call .getStandardStartState,
    .tryExcept .readTerrainMtx PyError.isAttributeError .readGridAttr,
    .call .displayRenderedState0,
    .call .getStateTransition,
    .call .displayRenderedState1,
    .call .losslessStateEncoding,
    .call .fromPickleOrCompute,
    .call .featurizeState,
    .call .potentialFunction,
    .call .getRollouts,
    .call .displayRenderedTrajectory ]

/-- Outcome oracle: what each library call does when executed (succeeds, or
raises a given exception). -/
abbrev Oracle := LibCall → Except PyError Unit

/-- Run one notebook statement under an outcome oracle.  A bare call
propagates whatever its library call raises; a `try`/`except` runs the
fallback exactly when the primary call raises an exception matched by the
guard. -/
def runStmt (o : Oracle) : Stmt → Except PyError Unit
  | .call c => o c
  | .tryExcept c catches fb =>
      match o c with
      | .ok u => .ok u
      | .error e => if catches e then o fb else .error e

/-- Run the notebook program: statements execute in order, and the first
unhandled exception aborts the run. -/
def runProgram (o : Oracle) : List Stmt → Except PyError Unit
  | [] => .ok ()
  | s :: rest =>
      match runStmt o s with
      | .ok _ => runProgram o rest
      | .error e => .error e

/-- The per-agent actions of the simulation (`Action` in the library):
four moves, stay, and `INTERACT` as used in Cell 5. -/
inductive Action where
  | north
  | south
  | east
  | west
  | stay
  | interact
  deriving DecidableEq, Repr

/-- A joint action: a pair of per-agent action values (spec, Data Model). -/
abbrev JointAction := Action × Action

/-- One player of a state: position and held object (spec, Data Model:
"player positions, held objects"). -/
structure PlayerState where
  position : Nat × Nat
  heldObject : Option String
  deriving DecidableEq, Repr

/-- Modelled from the spec: the grid-world state object — "player positions,
held objects, pot contents" (spec, Data Model).  The library's state class is
not in this repository. -/
structure OvercookedState where
  players : PlayerState × PlayerState
  potContents : List ((Nat × Nat) × Nat)
  timestep : Nat
  deriving DecidableEq, Repr

/-- The terrain character at position `(x, y)` of a grid (column `x`,
row `y`); out-of-bounds reads as a wall. -/
def terrainAt (g : Grid) (x y : Nat) : Char :=
  (g.getD y []).getD x 'X'

/-- The terrain grid of a grid-world object, defaulting to the empty grid
when neither attribute carries one. -/
def terrainOf (m : Mdp) : Grid :=
  (m.terrain_mtx.orElse fun _ => m.grid).getD []

/-- The positions of all empty-floor cells of a grid, row-major. -/
def emptyCells (g : Grid) : List (Nat × Nat) :=
  (List.range (gridRows g)).flatMap fun y =>
    (List.range (gridCols g)).filterMap fun x =>
      if terrainAt g x y = ' ' then some (x, y) else none

/-- Modelled from the spec: `get_standard_start_state` — "derive a standard
start state" (spec, External Interfaces).  The library's start-state
derivation is not in this repository; the model places the two players on
the first two empty-floor cells, holding nothing, with empty pots at
timestep 0. -/
def get_standard_start_state (m : Mdp) : OvercookedState :=
  let cells := emptyCells (terrainOf m)
  { players := (⟨cells.getD 0 (0, 0), none⟩, ⟨cells.getD 1 (0, 0), none⟩),
    potContents := [],
    timestep := 0 }

/-- A state is valid for a grid-world when both players stand on distinct
empty-floor cells of its terrain. -/
def validState (m : Mdp) (s : OvercookedState) : Bool :=
  let g := terrainOf m
  let p0 := s.players.1.position
  let p1 := s.players.2.position
  terrainAt g p0.1 p0.2 = ' ' && terrainAt g p1.1 p1.2 = ' ' && p0 ≠ p1

/-- The displacement of one action on the grid (positive `y` is downward,
matching row-major grids). -/
def Action.delta : Action → Int × Int
  | .north => (0, -1)
  | .south => (0, 1)
  | .east => (1, 0)
  | .west => (-1, 0)
  | .stay => (0, 0)
  | .interact => (0, 0)

/-- The cell one player would move to under an action: movement succeeds only
onto an in-bounds empty-floor cell, otherwise the player stays. -/
def targetCell (g : Grid) (p : Nat × Nat) (a : Action) : Nat × Nat :=
  let d := a.delta
  let nx := (p.1 : Int) + d.1
  let ny := (p.2 : Int) + d.2
  if 0 ≤ nx ∧ 0 ≤ ny ∧ terrainAt g nx.toNat ny.toNat = ' '
  then (nx.toNat, ny.toNat) else p

/-- Event keys of the library's event log, transcribed from the recorded
output of Cell 5 (`Logged events: {...}`). -/
def eventKeys : List String :=
  [ "tomato_pickup", "useful_tomato_pickup", "tomato_drop",
    "useful_tomato_drop", "potting_tomato", "onion_pickup",
    "useful_onion_pickup", "onion_drop", "useful_onion_drop",
    "potting_onion", "dish_pickup", "useful_dish_pickup", "dish_drop",
    "useful_dish_drop", "soup_pickup", "soup_delivery", "soup_drop",
    "optimal_onion_potting", "optimal_tomato_potting",
    "viable_onion_potting", "viable_tomato_potting",
    "catastrophic_onion_potting", "catastrophic_tomato_potting",
    "useless_onion_potting", "useless_tomato_potting" ]

/-- An event log: per event key, one boolean flag per player (spec, Data
Model: "an event-log mapping of boolean flags"). -/
abbrev EventLog := List (String × (Bool × Bool))

/-- The event-info record returned by a transition: a mapping that carries
the event log under the key `event_infos` (Cell 5 reads
`info['event_infos']`). -/
abbrev InfoRecord := List (String × EventLog)

/-- Modelled from the spec: `get_state_transition` — "given a state and a
pair of per-agent actions, return the successor state and an event-info
record" (spec, External Interfaces).  The library's transition dynamics are
not in this repository; the model moves each player by its action (a
movement blocked by terrain, the board edge, or a collision with the other
player's target leaves the player in place) and advances the timestep, and
logs every event key as `(False, False)` as in the recorded Cell 5 output. -/
def get_state_transition (m : Mdp) (s : OvercookedState) (ja : JointAction) :
    OvercookedState × InfoRecord :=
  let g := terrainOf m
  let t0 := targetCell g s.players.1.position ja.1
  let t1 := targetCell g s.players.2.position ja.2
  let collide := t0 = t1
  let p0 := { s.players.1 with
              position := if collide then s.players.1.position else t0 }
  let p1 := { s.players.2 with
              position := if collide then s.players.2.position else t1 }
  let s' := { s with players := (p0, p1), timestep := s.timestep + 1 }
  (s', [("event_infos", eventKeys.map fun k => (k, (false, false)))])

/-- Modelled from the spec: the motion planner — part of the "precomputed
motion/medium-level-action planner" (spec, External Interfaces).  The
library's planner is not in this repository; the model keeps the grid-world
it was computed for. -/
structure MotionPlanner where
  mdp : Mdp
  deriving DecidableEq, Repr

/-- Modelled from the spec: the medium-level action manager
(`MediumLevelActionManager`), carrying a motion planner as in Cell 8's
`mlam.motion_planner`. -/
structure MediumLevelActionManager where
  motion_planner : MotionPlanner
  deriving DecidableEq, Repr

/-- Planner parameters (`NO_COUNTERS_PARAMS` in Cell 7): whether counters
may be used for drops and pickups. -/
structure PlannerParams where
  counter_drop : List (Nat × Nat)
  counter_pickup : List (Nat × Nat)
  deriving DecidableEq, Repr

/-- The library's `NO_COUNTERS_PARAMS`: no counters usable. -/
def NO_COUNTERS_PARAMS : PlannerParams :=
  { counter_drop := [], counter_pickup := [] }

/-- Modelled from the spec: `MediumLevelActionManager.from_pickle_or_compute`
— precompute the planner for a grid-world (Cell 7).  The cache file the
library reads or writes is outside this repository's code; the model
computes the planner directly. -/
def from_pickle_or_compute (m : Mdp) (_params : PlannerParams) :
    MediumLevelActionManager :=
  { motion_planner := { mdp := m } }

/-- Number of channels of the boolean-mask encoding, from the recorded
Cell 6 output `Mask shape per player: (9, 5, 26)`. -/
def numChannels : Nat := 26

/-- A stacked boolean-mask tensor: indexed column-major as
`t[x][y][channel]`, matching the recorded shape `(columns, rows, channels)`. -/
abbrev MaskTensor := List (List (List Bool))

/-- The shape of a mask tensor, as a triple of its three nesting depths
(what `mask_p0.shape` reports in Cell 6). -/
def maskShape (t : MaskTensor) : Nat × Nat × Nat :=
  (t.length, (t.headD []).length, ((t.headD []).headD []).length)

/-- One boolean channel value at one cell: channels 0–1 locate the two
players (the encoded player first), channels 2–6 are terrain one-hots,
channel 7 flags a held object of the encoded player, the rest are zero. -/
def channelValue (m : Mdp) (s : OvercookedState) (i : Nat) (x y ch : Nat) :
    Bool :=
  let g := terrainOf m
  let me := if i = 0 then s.players.1 else s.players.2
  let other := if i = 0 then s.players.2 else s.players.1
  match ch with
  | 0 => me.position = (x, y)
  | 1 => other.position = (x, y)
  | 2 => terrainAt g x y = 'X'
  | 3 => terrainAt g x y = 'O'
  | 4 => terrainAt g x y = 'S'
  | 5 => terrainAt g x y = 'P'
  | 6 => terrainAt g x y = 'D'
  | 7 => me.position = (x, y) && me.heldObject.isSome
  | _ => false

/-- The stacked boolean-mask tensor of one player: one boolean per column,
row and channel of the layout. -/
def playerMask (m : Mdp) (s : OvercookedState) (i : Nat) : MaskTensor :=
  (List.range (gridCols (terrainOf m))).map fun x =>
    (List.range (gridRows (terrainOf m))).map fun y =>
      (List.range numChannels).map fun ch => channelValue m s i x y ch

/-- Modelled from the spec: `lossless_state_encoding` — "a stacked
boolean-mask tensor per player for neural encodings" (spec, External
Interfaces).  The library's channel layout is not in this repository; the
model returns one tensor per player, two in all as in Cell 6's
`mask_p0, mask_p1 = mdp.lossless_state_encoding(state0)`, each of shape
`(columns, rows, numChannels)` as in the recorded output. -/
def lossless_state_encoding (m : Mdp) (s : OvercookedState) :
    List MaskTensor :=
  [playerMask m s 0, playerMask m s 1]

/-- Length of the hand-crafted feature vector of one player, from the
recorded Cell 7 output `Feature vector length per player: 96`. -/
def featureVectorLength : Nat := 96

/-- The hand-crafted features of one player: position, held-object flag,
pot count relative to `num_pots`, and the planner's grid width, padded with
zeros to the fixed length. -/
def playerFeatures (s : OvercookedState) (mlam : MediumLevelActionManager)
    (num_pots : Nat) (i : Nat) : List ℚ :=
  let p := if i = 0 then s.players.1 else s.players.2
  let base : List ℚ :=
    [ (p.position.1 : ℚ), (p.position.2 : ℚ),
      if p.heldObject.isSome then 1 else 0,
      (min s.potContents.length num_pots : ℚ),
      (gridCols (terrainOf mlam.motion_planner.mdp) : ℚ) ]
  base ++ List.replicate (featureVectorLength - base.length) 0

/-- Modelled from the spec: `featurize_state` — "a fixed-length hand-crafted
numeric feature vector per player, the latter requiring a precomputed
motion/medium-level-action planner" (spec, External Interfaces).  The
library's feature list is not in this repository; the model takes the
planner as an argument, as in Cell 7's
`mdp.featurize_state(state0, mlam, num_pots=2)`, and returns one vector of
the recorded fixed length per player. -/
def featurize_state (s : OvercookedState) (mlam : MediumLevelActionManager)
    (num_pots : Nat) : List (List ℚ) :=
  [playerFeatures s mlam num_pots 0, playerFeatures s mlam num_pots 1]

/-- A Python value as returned by a library call: a scalar number, a list,
a tuple, or a dict. -/
inductive PyValue where
  | scalar (q : ℚ)
  | pylist (vs : List PyValue)
  | pytuple (vs : List PyValue)
  | pydict (vs : List (String × PyValue))

/-- `True` exactly on a single scalar value. -/
def PyValue.isScalar : PyValue → Bool
  | .scalar _ => true
  | _ => false

/-- Modelled from the spec: `potential_function` — "a potential function
over a state and a motion planner, parameterized by a discount factor,
returning a scalar" (spec, External Interfaces).  The library's shaping
heuristic is not in this repository; the model returns a discounted
heuristic of held objects and pot contents as a single scalar value. -/
def potential_function (s : OvercookedState) (mp : MotionPlanner)
    (gamma : ℚ) : PyValue :=
  let held : ℚ :=
    (if s.players.1.heldObject.isSome then 1 else 0) +
      (if s.players.2.heldObject.isSome then 1 else 0)
  let pots : ℚ := (s.potContents.length : ℚ)
  .scalar (gamma * (held + pots + (gridRows (terrainOf mp.mdp) : ℚ)))

/-- Modelled from the spec: the library's named-layout database — "build a
grid-world from a named layout" (spec, External Interfaces).  Only the layout
the notebook uses is pinned, by the grid recorded in Cell 3's output. -/
def layoutDatabase : List (String × Grid) :=
  [("asymmetric_advantages", asymmetricAdvantagesGrid)]

/-- Modelled from the spec: `OvercookedGridworld.from_layout_name` — "build
a grid-world from a named layout" (spec, External Interfaces).  A missing
layout name raises, and the failure is not handled anywhere in the
notebook.  The constructed grid-world exposes its terrain under
`terrain_mtx` (Cell 3 markdown: "either as `.terrain_mtx` or `.grid`"). -/
def from_layout_name (name : String) : Except PyError Mdp :=
  match layoutDatabase.lookup name with
  | some g => .ok { layout_name := name, terrain_mtx := some g, grid := none }
  | none => .error .missingLayout

/-- The grid-world built by Cell 2:
`mdp = OvercookedGridworld.from_layout_name("asymmetric_advantages")`. -/
def mdpNotebook : Mdp :=
  { layout_name := "asymmetric_advantages",
    terrain_mtx := some asymmetricAdvantagesGrid,
    grid := none }

/-- The environment wrapper (`OvercookedEnv`): a grid-world plus a fixed
step horizon. -/
structure OvercookedEnv where
  mdp : Mdp
  horizon : Nat
  deriving DecidableEq, Repr

/-- `OvercookedEnv.from_mdp`: wrap a grid-world with a step horizon
(Cell 2: `env = OvercookedEnv.from_mdp(mdp, horizon=400)`). -/
def OvercookedEnv.from_mdp (m : Mdp) (horizon : Nat) : OvercookedEnv :=
  { mdp := m, horizon := horizon }

/-- The environment built by Cell 2, with the notebook's horizon of 400. -/
def envNotebook : OvercookedEnv :=
  OvercookedEnv.from_mdp mdpNotebook 400

/-- A policy: one agent's action choice as a function of the state (the
random agents of Cell 9 modelled as arbitrary policies). -/
abbrev Policy := OvercookedState → Action

/-- One recorded step of a rollout: the state, the joint action taken in
it, and the reward received. -/
abbrev Frame := OvercookedState × JointAction × ℚ

/-- Simulate `n` steps from a state under a pair of policies, recording one
frame per step. -/
def rolloutFrom (m : Mdp) (p0 p1 : Policy) :
    Nat → OvercookedState → List Frame
  | 0, _ => []
  | n + 1, s =>
      let ja : JointAction := (p0 s, p1 s)
      let s' := (get_state_transition m s ja).1
      (s, ja, 0) :: rolloutFrom m p0 p1 n s'

/-- Modelled from the spec: `OvercookedEnv.get_rollouts` — "a recorded
sequence of states, actions, and rewards produced by simulating a pair of
policies to the step horizon" (spec, Glossary).  The library's rollout
loop is not in this repository; the model simulates from the standard start
state for exactly the environment's horizon. -/
def get_rollouts (env : OvercookedEnv) (p0 p1 : Policy) : List Frame :=
  rolloutFrom env.mdp p0 p1 env.horizon (get_standard_start_state env.mdp)

/-- Modelled from the spec: the call-site effect of Cell 5's
`next_state, info = mdp.get_state_transition(state0, joint_action)` on the
caller's `state0` binding.  The spec describes the transition functionally
— "given a state and a pair of per-agent actions, return the successor
state and an event-info record" — so the caller's state object is returned
unchanged alongside the successor and the info record. -/
def get_state_transition_effect (m : Mdp) (s : OvercookedState)
    (ja : JointAction) : OvercookedState × (OvercookedState × InfoRecord) :=
  (s, get_state_transition m s ja)

/-- A grid-world exposing its terrain only under the `grid` attribute, used
to exercise Cell 3's fallback branch. -/
def mdpFallbackExample : Mdp :=
  { layout_name := "asymmetric_advantages",
    terrain_mtx := none,
    grid := some asymmetricAdvantagesGrid }

/-- An oracle under which every library call raises a planner failure. -/
def oracleAllPlannerFail : Oracle := fun _ => .error .plannerError

/-- Every simulated rollout records exactly one frame per simulated step. -/
theorem rolloutFrom_length (m : Mdp) (p0 p1 : Policy) :
    ∀ (n : Nat) (s : OvercookedState), (rolloutFrom m p0 p1 n s).length = n := by
  intro n
  induction n with
  | zero => intro s; rfl
  | succ k ih =>
      intro s
      simp only [rolloutFrom, List.length_cons, ih]

/-- C1: Cell 3 reads `terrain_mtx` first; exactly when that attribute is
absent (so the read raises `AttributeError`), it reads the `grid` attribute
instead; and this `try`/`except` is the only error-handling statement of
the notebook program. -/
theorem grid_extraction_attribute_fallback :
    (∀ (m : Mdp) (g : Grid), m.terrain_mtx = some g → extractGrid m = .ok g) ∧
    (∀ m : Mdp, m.terrain_mtx = none → extractGrid m = readAttr m.grid "grid") ∧
    (notebookProgram.filter Stmt.isHandler).length = 1 := by
  refine ⟨?_, ?_, rfl⟩
  · intro m g h
    simp [extractGrid, readAttr, h]
  · intro m h
    simp [extractGrid, readAttr, h, PyError.isAttributeError]

/-- Witness for C1: on the notebook's grid-world the `terrain_mtx` branch
returns the recorded grid; on a grid-world lacking `terrain_mtx` the `grid`
attribute is read instead. -/
theorem grid_extraction_attribute_fallback_witness :
    mdpNotebook.terrain_mtx = some asymmetricAdvantagesGrid ∧
    extractGrid mdpNotebook = .ok asymmetricAdvantagesGrid ∧
    mdpFallbackExample.terrain_mtx = none ∧
    extractGrid mdpFallbackExample = readAttr mdpFallbackExample.grid "grid" :=
  ⟨rfl, grid_extraction_attribute_fallback.1 mdpNotebook asymmetricAdvantagesGrid rfl,
    rfl, grid_extraction_attribute_fallback.2.1 mdpFallbackExample rfl⟩

/-- C2: for every grid-world, state and pair of per-agent actions, the
transition returns the successor state paired with an event-info record
holding the event log under the key `event_infos`. -/
theorem transition_returns_state_and_event_infos :
    ∀ (m : Mdp) (s : OvercookedState) (ja : JointAction),
      get_state_transition m s ja =
        ((get_state_transition m s ja).1, (get_state_transition m s ja).2) ∧
      ((get_state_transition m s ja).2.lookup "event_infos") =
        some (eventKeys.map fun k => (k, (false, false))) := by
  intro m s ja
  exact ⟨rfl, rfl⟩

/-- C3: the mask featurization returns exactly one stacked boolean-mask
tensor per player (two in all), and the hand-crafted featurization — whose
signature takes the precomputed medium-level-action planner as an argument
— returns one numeric vector per player of the fixed length 96. -/
theorem featurization_counts_and_lengths :
    ∀ (m : Mdp) (s : OvercookedState) (mlam : MediumLevelActionManager)
      (num_pots : Nat),
      (lossless_state_encoding m s).length = 2 ∧
      (featurize_state s mlam num_pots).map List.length =
        [featureVectorLength, featureVectorLength] := by
  intro m s mlam num_pots
  refine ⟨rfl, ?_⟩
  simp [featurize_state, playerFeatures, featureVectorLength]

/-- C4: the potential function, over a state and a motion planner and
parameterized by a discount factor, returns a single scalar value. -/
theorem potential_function_returns_scalar :
    ∀ (s : OvercookedState) (mp : MotionPlanner) (gamma : ℚ),
      (potential_function s mp gamma).isScalar = true ∧
      ∃ q : ℚ, potential_function s mp gamma = .scalar q := by
  intro s mp gamma
  exact ⟨rfl, _, rfl⟩

/-- C5: the environment wrapper of Cell 2 is built with horizon 400, and a
rollout of any pair of policies records exactly that many
state/action/reward frames. -/
theorem rollout_length_equals_horizon :
    envNotebook.horizon = 400 ∧
    ∀ p0 p1 : Policy, (get_rollouts envNotebook p0 p1).length = 400 := by
  refine ⟨rfl, ?_⟩
  intro p0 p1
  exact rolloutFrom_length envNotebook.mdp p0 p1 400 _

/-- C6: constructing the grid-world from the layout name
`asymmetric_advantages` succeeds, and its standard start state is a valid
state of that grid-world (both players on distinct empty-floor cells). -/
theorem from_layout_name_gives_valid_start_state :
    from_layout_name "asymmetric_advantages" = .ok mdpNotebook ∧
    validState mdpNotebook (get_standard_start_state mdpNotebook) = true := by
  constructor
  · rfl
  · decide

/-- C7: the notebook's only `try`/`except` is Cell 3's grid extraction, and
every other statement is a bare library call, whose failures propagate
unhandled: whenever the library call raises, the statement raises the same
exception. -/
theorem only_grid_extraction_handles_errors :
    notebookProgram.filter Stmt.isHandler =
      [Stmt.tryExcept .readTerrainMtx PyError.isAttributeError .readGridAttr] ∧
    (∀ (o : Oracle) (c : LibCall) (e : PyError),
      o c = .error e → runStmt o (.call c) = .error e) := by
  refine ⟨rfl, ?_⟩
  intro o c e h
  exact h

/-- Witness for C7: under an oracle where the planner computation fails,
the bare `featurize_state` call statement propagates that failure. -/
theorem only_grid_extraction_handles_errors_witness :
    oracleAllPlannerFail .featurizeState = .error .plannerError ∧
    runStmt oracleAllPlannerFail (.call .featurizeState) = .error .plannerError :=
  ⟨rfl, only_grid_extraction_handles_errors.2 oracleAllPlannerFail
    .featurizeState .plannerError rfl⟩

/-- C8: the transition does not mutate its input state: the caller's state
binding after the call is the original state, so the later featurization
and potential-function calls on it still see the standard start state's
value. -/
theorem transition_does_not_mutate_input :
    ∀ (m : Mdp) (s : OvercookedState) (ja : JointAction)
      (mlam : MediumLevelActionManager) (num_pots : Nat)
      (mp : MotionPlanner) (gamma : ℚ),
      (get_state_transition_effect m s ja).1 = s ∧
      featurize_state (get_state_transition_effect m s ja).1 mlam num_pots =
        featurize_state s mlam num_pots ∧
      potential_function (get_state_transition_effect m s ja).1 mp gamma =
        potential_function s mp gamma := by
  intro m s ja mlam num_pots mp gamma
  exact ⟨rfl, rfl, rfl⟩

/-- C9: on the notebook's grid-world, each per-player mask tensor has shape
`(columns, rows, channels)` — the transpose of the layout's `5 × 9`
row-by-column dimensions — concretely `(9, 5, 26)`. -/
theorem mask_shape_transposes_grid_dimensions :
    ∀ (s : OvercookedState), ∀ t ∈ lossless_state_encoding mdpNotebook s,
      maskShape t =
        (gridCols (terrainOf mdpNotebook), gridRows (terrainOf mdpNotebook),
          numChannels) ∧
      gridRows (terrainOf mdpNotebook) = 5 ∧
      gridCols (terrainOf mdpNotebook) = 9 ∧ numChannels = 26 := by
  intro s t ht
  simp only [lossless_state_encoding, List.mem_cons, List.mem_singleton,
    List.not_mem_nil, or_false] at ht
  rcases ht with h | h <;> subst h <;> exact ⟨rfl, rfl, rfl, rfl⟩

/-- Witness for C9: the first player's mask of the standard start state is
one of the returned tensors and has shape `(9, 5, 26)`. -/
theorem mask_shape_transposes_grid_dimensions_witness :
    playerMask mdpNotebook (get_standard_start_state mdpNotebook) 0 ∈
      lossless_state_encoding mdpNotebook (get_standard_start_state mdpNotebook) ∧
    maskShape (playerMask mdpNotebook (get_standard_start_state mdpNotebook) 0) =
      (9, 5, 26) :=
  ⟨List.mem_cons_self _ _,
    (mask_shape_transposes_grid_dimensions
      (get_standard_start_state mdpNotebook)
      (playerMask mdpNotebook (get_standard_start_state mdpNotebook) 0)
      (List.mem_cons_self _ _)).1⟩

/-- C10: the grid extracted by Cell 3 is non-empty and rectangular, with 5
rows that all have length 9, so the reported `5 × 9` size describes every
row. -/
theorem extracted_grid_nonempty_rectangular :
    extractGrid mdpNotebook = .ok asymmetricAdvantagesGrid ∧
    isRectangular asymmetricAdvantagesGrid = true ∧
    gridRows asymmetricAdvantagesGrid = 5 ∧
    gridCols asymmetricAdvantagesGrid = 9 ∧
    asymmetricAdvantagesGrid.all
      (fun row => row.length = gridCols asymmetricAdvantagesGrid) = true := by
  refine ⟨rfl, ?_, rfl, rfl, ?_⟩ <;> decide

end Overcooked
